import Mathlib

/-!
Verification of the panel feature derivation and statistical modeling engine
of the ethnic-conflict analysis repository.

The first half embeds `src/data_processing.py` (`load_and_preprocess_data`):
pandas cell values are modelled by `Raw`, a data frame by a `List` of row
structures, and the pandas operations used by the source (elementwise
comparison, `pd.to_numeric(errors := coerce)`, `sort_values`,
`groupby(...)[...].shift(-lag)`, `fillna(0)`, `astype(int)`) by explicit
list functions.  Numeric cells are modelled as integers: every numeric
column of this dataset's schema (year, ordinal power rank, 0/1 covariates
and conflict flags) is integer-valued.

The second half embeds `src/modeling.py` (`build_statistical_models`) and the
variant `output/figures/modeling.py`.  The statsmodels optimizer is external
code, so a fit attempt is a parameter: a function from
(formula, method, maxiter, cov_type) to an outcome that either raised or
returned an opaque result together with its reported convergence flag.  The
control flow of the source (the optimizer fallback chain, the per-spec fits
with the selected method, exception propagation and the try/except blocks)
is embedded faithfully over that parameter.
-/

namespace EthnicConflict

/-- A pandas cell value: a number, a string, or a missing value (NaN). -/
inductive Raw where
  | num (q : Int)
  | str (s : String)
  | na
deriving DecidableEq, Repr, Inhabited

/-- Elementwise pandas equality comparison of a cell with a number
(`df[col] == 1`): a string never equals a number, and NaN compares unequal. -/
def rawEqNum (r : Raw) (q : Int) : Bool :=
  match r with
  | .num x => x == q
  | .str _ => false
  | .na => false

/-- Elementwise pandas order comparison of a cell with a number
(`df[col] <= 3`): comparing a string cell with a number raises a
`TypeError`; NaN comparisons are `False`. -/
def rawLeNum (r : Raw) (q : Int) : Except String Bool :=
  match r with
  | .num x => .ok (decide (x ≤ q))
  | .str s => .error ("TypeError: not supported between str and int: " ++ s)
  | .na => .ok false

/-- Digit-string parsing helper for the model of `pd.to_numeric`. -/
def parseDigits : List Char → Option Nat
  | [] => none
  | cs => cs.foldl (fun acc c =>
      match acc with
      | none => none
      | some n => if c.isDigit then some (n * 10 + (c.toNat - 48)) else none)
      (some 0)

/-- Model of numeral parsing inside `pd.to_numeric`: an optional sign
followed by digits (the dataset's numeric columns are integer-valued). -/
def parseIntString (s : String) : Option Int :=
  match s.toList with
  | '-' :: rest => (parseDigits rest).map (fun n => -(n : Int))
  | cs => (parseDigits cs).map (fun n => (n : Int))

/-- `pd.to_numeric(col, errors := coerce)` on one cell: numbers pass
through, parseable strings become numbers, anything else becomes NaN. -/
def to_numeric_coerce (r : Raw) : Raw :=
  match r with
  | .num q => .num q
  | .str s => match parseIntString s with
      | some q => .num q
      | none => .na
  | .na => .na

/-- `EXCLUDED_THRESHOLD` from `config.py`: `status_pwrrank <= 3` counts as
politically excluded. -/
def EXCLUDED_THRESHOLD : Int := 3

/-- One raw input record of the panel CSV, restricted to the columns
`load_and_preprocess_data` reads.  The two identifier columns are used only
through `astype(str)`, so they are modelled as strings. -/
structure RawRow where
  gwgroupid : String
  countries_gwid : String
  year : Raw
  status_pwrrank : Raw
  upgraded10 : Raw
  geo_concentrated : Raw
  incidence_flag : Raw
  incidence_terr_flag : Raw
  incidence_gov_flag : Raw
deriving DecidableEq, Repr, Inhabited

/-- A record after the column-creating statements of
`load_and_preprocess_data` have run: original position `idx`, the numeric
columns overwritten by their coerced values, and the derived columns
`excluded`, `any_conflict`, `group_country_id`. -/
structure PRow where
  idx : Nat
  gwgroupid : String
  countries_gwid : String
  year : Raw
  status_pwrrank : Raw
  upgraded10 : Raw
  geo_concentrated : Raw
  incidence_flag : Raw
  incidence_terr_flag : Raw
  incidence_gov_flag : Raw
  excluded : Int
  any_conflict : Int
  group_country_id : String
deriving DecidableEq, Repr, Inhabited

/-- `df[excluded] = (df[status_pwrrank] <= 3).astype(int)` on one cell;
the source compares against the literal `3` (the value of
`EXCLUDED_THRESHOLD`). -/
def computeExcluded (status : Raw) : Except String Int :=
  (rawLeNum status 3).map (fun b => if b then 1 else 0)

/-- `df[any_conflict] = ((f1 == 1) | (f2 == 1) | (f3 == 1)).astype(int)`
on one row. -/
def computeAnyConflict (f1 f2 f3 : Raw) : Int :=
  if rawEqNum f1 1 || rawEqNum f2 1 || rawEqNum f3 1 then 1 else 0

/-- The column-creating statements of `load_and_preprocess_data` for the row
at original position `i`, in source order: `excluded` and `any_conflict` are
computed from the raw (pre-coercion) cells, `group_country_id` concatenates
the identifiers, and only afterwards are the designated numeric columns
overwritten with `pd.to_numeric(..., errors := coerce)` values. -/
def enrichRow (i : Nat) (r : RawRow) : Except String PRow := do
  let excl ← computeExcluded r.status_pwrrank
  .ok { idx := i
        gwgroupid := r.gwgroupid
        countries_gwid := r.countries_gwid
        year := to_numeric_coerce r.year
        status_pwrrank := to_numeric_coerce r.status_pwrrank
        upgraded10 := to_numeric_coerce r.upgraded10
        geo_concentrated := to_numeric_coerce r.geo_concentrated
        incidence_flag := to_numeric_coerce r.incidence_flag
        incidence_terr_flag := to_numeric_coerce r.incidence_terr_flag
        incidence_gov_flag := to_numeric_coerce r.incidence_gov_flag
        excluded := excl
        any_conflict := computeAnyConflict r.incidence_flag r.incidence_terr_flag r.incidence_gov_flag
        group_country_id := r.gwgroupid ++ "_" ++ r.countries_gwid }

/-- Apply the column-creating statements to every row; an elementwise
`TypeError` aborts the whole preprocessing step, as in pandas. -/
def enrichAll (n : Nat) : List RawRow → Except String (List PRow)
  | [] => .ok []
  | r :: rs => do
      let p ← enrichRow n r
      let ps ← enrichAll (n + 1) rs
      .ok (p :: ps)

/-- Sort-key comparison on the `year` column used by
`df.sort_values([group_country_id, year])`: numbers ascending, NaN last.
After the coercion step the year column never holds a string, so the string
case is unreachable; it is ordered between numbers and NaN. -/
def yearLe (a b : Raw) : Prop :=
  match a, b with
  | .num x, .num y => x ≤ y
  | .num _, .str _ => True
  | .num _, .na => True
  | .str _, .num _ => False
  | .str s, .str t => s ≤ t
  | .str _, .na => True
  | .na, .num _ => False
  | .na, .str _ => False
  | .na, .na => True

instance : DecidableRel yearLe := fun a b => by
  unfold yearLe
  cases a <;> cases b <;> infer_instance

/-- Strict lexicographic code-point comparison of character lists - the
order pandas uses on string keys.  (Defined structurally so that it
evaluates on literals.) -/
def charListLt : List Char → List Char → Bool
  | [], [] => false
  | [], _ :: _ => true
  | _ :: _, [] => false
  | a :: as, b :: bs =>
    if a.toNat < b.toNat then true
    else if b.toNat < a.toNat then false
    else charListLt as bs

/-- Strict lexicographic order on strings by code points. -/
def stringLt (s t : String) : Bool :=
  charListLt s.toList t.toList

/-- Row ordering of `df.sort_values([group_country_id, year])`:
lexicographic on the entity key (string order) and then the year. -/
def rowLe (p q : PRow) : Prop :=
  stringLt p.group_country_id q.group_country_id = true ∨
    (p.group_country_id = q.group_country_id ∧ yearLe p.year q.year)

instance : DecidableRel rowLe := fun p q => by
  unfold rowLe
  infer_instance

/-- `grouped = df.sort_values([group_country_id, year])`: a sorted copy of
the enriched frame (insertion sort is stable; the source leaves the order of
duplicate (entity, year) pairs unspecified). -/
def sortRows (l : List PRow) : List PRow :=
  List.insertionSort rowLe l

/-- The rows of the sorted frame belonging to one entity key, in sorted
order: the group that `groupby(group_country_id)` forms for that key. -/
def entityPartition (prows : List PRow) (k : String) : List PRow :=
  (sortRows prows).filter (fun p => p.group_country_id == k)

/-- The value `groupby(group_country_id)[any_conflict].shift(-lag)`
assigns, followed by `fillna(0)` and `astype(int)`, aligned back to the row
`r` by its original index: the `any_conflict` of the row `lag` positions
later inside `r`'s sorted entity partition, and `0` when no such row
exists. -/
def futureConflict (prows : List PRow) (lag : Nat) (r : PRow) : Int :=
  match (entityPartition prows r.group_country_id).findIdx? (fun x => x.idx == r.idx) with
  | some j =>
      ((((entityPartition prows r.group_country_id).get? (j + lag)).map PRow.any_conflict)).getD 0
  | none => 0

/-- A fully preprocessed record: the enriched row together with the three
future-conflict columns. -/
structure OutRow extends PRow where
  future_conflict_1yr : Int
  future_conflict_2yr : Int
  future_conflict_3yr : Int
deriving DecidableEq, Repr, Inhabited

/-- `load_and_preprocess_data` from `src/data_processing.py`, after
`pd.read_csv`: derive `excluded`, `any_conflict` and `group_country_id`,
coerce the numeric columns, and attach `future_conflict_{1,2,3}yr` via the
sorted group-wise shift, keeping the original row order. -/
def attachFutures (prows : List PRow) (p : PRow) : OutRow :=
  { toPRow := p
    future_conflict_1yr := futureConflict prows 1 p
    future_conflict_2yr := futureConflict prows 2 p
    future_conflict_3yr := futureConflict prows 3 p }

/-- `load_and_preprocess_data` continued: attach the three shifted columns
to every enriched row, keeping the original order. -/
def load_and_preprocess_data (rows : List RawRow) : Except String (List OutRow) := do
  let prows ← enrichAll 0 rows
  .ok (prows.map (attachFutures prows))

/-- Extract the payload of a successful `Except`, defaulting on error. -/
def getOk {β : Type} [Inhabited β] : Except String β → β
  | .ok b => b
  | .error _ => default

/-! ## Embedding of the modeling modules -/

/-- Outcome of one statsmodels fit attempt: either the call raised, or it
returned a result object `r` whose `mle_retvals` reports `converged`. -/
inductive FitOutcome (α : Type) where
  | raised
  | ok (r : α) (converged : Bool)
deriving DecidableEq, Repr

/-- A fit attempt as seen by `build_statistical_models`: the optimizer is
external (statsmodels), so it is a parameter taking the model formula, the
optimization method name, the `maxiter` argument (`none` when the source
passes no `maxiter`), and the `cov_type` argument (`none` when absent). -/
def FitFn (α : Type) : Type :=
  String → String → Option Nat → Option String → FitOutcome α

/-- The `optimization_methods` dict of `src/modeling.py`: ordered strategies
with their iteration caps. -/
def optimization_methods : List (String × Nat) :=
  [("bfgs", 1000), ("newton", 1000), ("lbfgs", 1000)]

/-- The state of the method-selection loop of `src/modeling.py`:
`best_method` (initially the default `"bfgs"`), `best_convergence`
(initially `False`) and `best_result` (initially `None`). -/
structure BestChoice (α : Type) where
  bestMethod : String
  bestConvergence : Bool
  bestResult : Option α
deriving DecidableEq, Repr

/-- Whether a fit attempt ran without raising and reported convergence. -/
def isConverged {α : Type} : FitOutcome α → Bool
  | .ok _ true => true
  | _ => false

/-- The payload of the first attempt in a list that ran without raising
(used to state what the selection loop retains when nothing converges). -/
def firstRanResult {α : Type} : List (FitOutcome α) → Option α
  | [] => none
  | .ok r _ :: _ => some r
  | .raised :: rest => firstRanResult rest

/-- The method-selection loop body of `src/modeling.py`: try each strategy
in order on the given formula; a raising attempt is skipped (`continue`); a
converged attempt is adopted and the loop `break`s; a non-converged attempt
is retained only when no earlier attempt ran.  The second component records
which strategies were actually attempted before the loop stopped. -/
def fallbackChain {α : Type} (fit : FitFn α) (formula : String) :
    List (String × Nat) → BestChoice α → BestChoice α × List String
  | [], best => (best, [])
  | (name, maxiter) :: rest, best =>
    match fit formula name (some maxiter) none with
    | .raised =>
        let (b, tried) := fallbackChain fit formula rest best
        (b, name :: tried)
    | .ok r true => ({ bestMethod := name, bestConvergence := true, bestResult := some r }, [name])
    | .ok r false =>
        let best' :=
          if best.bestResult.isNone then
            { bestMethod := name, bestConvergence := best.bestConvergence, bestResult := some r }
          else best
        let (b, tried) := fallbackChain fit formula rest best'
        (b, name :: tried)

/-- The whole method-selection pass (`src/modeling.py`, section 1): run the
fallback chain over `optimization_methods` starting from the defaults. -/
def findBestMethod {α : Type} (fit : FitFn α) (formula : String) :
    BestChoice α × List String :=
  fallbackChain fit formula optimization_methods
    { bestMethod := "bfgs", bestConvergence := false, bestResult := none }

/-- The formula the method-selection pass probes (the full model-5
formula). -/
def selection_formula : String :=
  "any_conflict ~ excluded + geo_concentrated + upgraded10 + excluded:geo_concentrated + excluded:upgraded10"

/-- Model 1: base specification. -/
def formula_model1 : String := "any_conflict ~ excluded"

/-- Model 2: controls added. -/
def formula_model2 : String := "any_conflict ~ excluded + geo_concentrated + upgraded10"

/-- Model 3: model 2 plus the exclusion-concentration interaction. -/
def formula_model3 : String :=
  "any_conflict ~ excluded + geo_concentrated + upgraded10 + excluded:geo_concentrated"

/-- Model 4: model 2 plus the exclusion-experience interaction. -/
def formula_model4 : String :=
  "any_conflict ~ excluded + geo_concentrated + upgraded10 + excluded:upgraded10"

/-- Model 5: the full specification (textually equal to
`selection_formula`). -/
def formula_model5 : String :=
  "any_conflict ~ excluded + geo_concentrated + upgraded10 + excluded:geo_concentrated + excluded:upgraded10"

/-- Future model 1 (`src/modeling.py`, section 7). -/
def formula_model1f : String := "future_conflict_1yr ~ excluded"

/-- Future model 5 (`src/modeling.py`, section 7). -/
def formula_model5f : String :=
  "future_conflict_1yr ~ excluded + geo_concentrated + upgraded10 + excluded:geo_concentrated + excluded:upgraded10"

/-- A value stored in the `results` dict: a fitted model, a `summary_col`
table (an ordered list of named columns), a marginal-effects object, or a
panel-model result. -/
inductive ResultVal (α : Type) where
  | fit (r : α)
  | summary (cols : List (String × α))
  | margins (m : α)
  | panel (p : α)
deriving DecidableEq, Repr

/-- A fit whose exception propagates to the caller (no surrounding
try/except); the error payload identifies the formula that raised. -/
def fitOrRaise {α : Type} (fit : FitFn α) (formula method : String)
    (maxiter : Option Nat) (covType : Option String) : Except String α :=
  match fit formula method maxiter covType with
  | .raised => .error formula
  | .ok r _ => .ok r

/-- `build_statistical_models` from `src/modeling.py`: one method-selection
pass on the full formula, then models 1-5 fit with the selected method (a
raising fit propagates and aborts the function), the try/except extras
(robust SEs for model 5, the optional panel model, marginal effects for
models 1 and 5), the five-column summary table, and the future-conflict
section whose exceptions are caught after any partial inserts.  `results`
is the dict in insertion order. -/
def build_statistical_models {α : Type} (fit : FitFn α)
    (panelAttempt : FitOutcome α) (margeff : α → FitOutcome α) :
    Except String (List (String × ResultVal α)) := do
  let best := (findBestMethod fit selection_formula).1
  let m := best.bestMethod
  let r1 ← fitOrRaise fit formula_model1 m (some 1000) none
  let r2 ← fitOrRaise fit formula_model2 m (some 1000) none
  let r3 ← fitOrRaise fit formula_model3 m (some 1000) none
  let r4 ← fitOrRaise fit formula_model4 m (some 1000) none
  let r5 ← fitOrRaise fit formula_model5 m (some 1000) none
  let robustEntries : List (String × ResultVal α) :=
    match fit formula_model5 m (some 1000) (some "HC0") with
    | .ok rr _ => [("robust_model5", .fit rr)]
    | .raised => []
  let panelEntries : List (String × ResultVal α) :=
    match panelAttempt with
    | .ok rp _ => [("panel_model", .panel rp)]
    | .raised => []
  let summaryEntry : String × ResultVal α :=
    ("summary_table", .summary
      [("Model 1", r1), ("Model 2", r2), ("Model 3", r3), ("Model 4", r4), ("Model 5", r5)])
  let margins1 : List (String × ResultVal α) :=
    match margeff r1 with
    | .ok mg _ => [("model1_margins", .margins mg)]
    | .raised => []
  let margins5 : List (String × ResultVal α) :=
    match margeff r5 with
    | .ok mg _ => [("model5_margins", .margins mg)]
    | .raised => []
  let futureEntries : List (String × ResultVal α) :=
    match fit formula_model1f m (some 1000) none with
    | .raised => []
    | .ok r1f _ =>
      match fit formula_model5f m (some 1000) none with
      | .raised => [("model1f", .fit r1f)]
      | .ok r5f _ =>
        [("model1f", .fit r1f), ("model5f", .fit r5f),
         ("future_summary_table", .summary
           [("Future Model 1", r1f), ("Future Model 5", r5f)])]
  .ok ([("model1", .fit r1), ("model2", .fit r2), ("model3", .fit r3),
        ("model4", .fit r4), ("model5", .fit r5)]
       ++ robustEntries ++ panelEntries ++ [summaryEntry]
       ++ margins1 ++ margins5 ++ futureEntries)

namespace figures

/-- Future model 2 of `output/figures/modeling.py`. -/
def formula_model2f : String := "future_conflict_1yr ~ excluded + geo_concentrated + upgraded10"

/-- Future model 3 of `output/figures/modeling.py`. -/
def formula_model3f : String :=
  "future_conflict_1yr ~ excluded + geo_concentrated + upgraded10 + excluded:geo_concentrated"

/-- Future model 4 of `output/figures/modeling.py`. -/
def formula_model4f : String :=
  "future_conflict_1yr ~ excluded + geo_concentrated + upgraded10 + excluded:upgraded10"

/-- `build_statistical_models` from `output/figures/modeling.py`: no
method-selection pass - every fit uses `method = bfgs` with no `maxiter`
argument; any raising fit propagates; five current-conflict models and five
future-conflict models, each family followed by its summary table. -/
def build_statistical_models {α : Type} (fit : FitFn α) :
    Except String (List (String × ResultVal α)) := do
  let r1 ← fitOrRaise fit formula_model1 "bfgs" none none
  let r2 ← fitOrRaise fit formula_model2 "bfgs" none none
  let r3 ← fitOrRaise fit formula_model3 "bfgs" none none
  let r4 ← fitOrRaise fit formula_model4 "bfgs" none none
  let r5 ← fitOrRaise fit formula_model5 "bfgs" none none
  let r1f ← fitOrRaise fit formula_model1f "bfgs" none none
  let r2f ← fitOrRaise fit formula_model2f "bfgs" none none
  let r3f ← fitOrRaise fit formula_model3f "bfgs" none none
  let r4f ← fitOrRaise fit formula_model4f "bfgs" none none
  let r5f ← fitOrRaise fit formula_model5f "bfgs" none none
  .ok [("model1", .fit r1), ("model2", .fit r2), ("model3", .fit r3),
       ("model4", .fit r4), ("model5", .fit r5),
       ("current_conflict_summary", .summary
         [("Model 1", r1), ("Model 2", r2), ("Model 3", r3), ("Model 4", r4), ("Model 5", r5)]),
       ("model1f", .fit r1f), ("model2f", .fit r2f), ("model3f", .fit r3f),
       ("model4f", .fit r4f), ("model5f", .fit r5f),
       ("future_conflict_summary", .summary
         [("Model 1F", r1f), ("Model 2F", r2f), ("Model 3F", r3f), ("Model 4F", r4f), ("Model 5F", r5f)])]

end figures

/-! ## Helper lemmas about the preprocessor -/

theorem enrichRow_ok {i : Nat} {r : RawRow} {p : PRow} (h : enrichRow i r = .ok p) :
    computeExcluded r.status_pwrrank = .ok p.excluded ∧
    p.idx = i ∧ p.gwgroupid = r.gwgroupid ∧ p.countries_gwid = r.countries_gwid ∧
    p.year = to_numeric_coerce r.year ∧
    p.status_pwrrank = to_numeric_coerce r.status_pwrrank ∧
    p.upgraded10 = to_numeric_coerce r.upgraded10 ∧
    p.geo_concentrated = to_numeric_coerce r.geo_concentrated ∧
    p.incidence_flag = to_numeric_coerce r.incidence_flag ∧
    p.incidence_terr_flag = to_numeric_coerce r.incidence_terr_flag ∧
    p.incidence_gov_flag = to_numeric_coerce r.incidence_gov_flag ∧
    p.any_conflict = computeAnyConflict r.incidence_flag r.incidence_terr_flag r.incidence_gov_flag ∧
    p.group_country_id = r.gwgroupid ++ "_" ++ r.countries_gwid := by
  cases he : computeExcluded r.status_pwrrank with
  | error e => simp [enrichRow, he, bind, Except.bind] at h
  | ok v =>
    simp only [enrichRow, he, bind, Except.bind] at h
    cases h
    simp

theorem computeExcluded_binary {s : Raw} {v : Int} (h : computeExcluded s = .ok v) :
    v = 0 ∨ v = 1 := by
  cases s with
  | num q =>
    by_cases hq : q ≤ 3 <;> simp [computeExcluded, rawLeNum, hq, Except.map] at h <;> omega
  | str t => simp [computeExcluded, rawLeNum, Except.map] at h
  | na => simp [computeExcluded, rawLeNum, Except.map] at h; omega

theorem computeAnyConflict_binary (a b c : Raw) :
    computeAnyConflict a b c = 0 ∨ computeAnyConflict a b c = 1 := by
  unfold computeAnyConflict
  split <;> simp

theorem enrichAll_ok_cons {n : Nat} {r : RawRow} {rs : List RawRow} {l : List PRow}
    (h : enrichAll n (r :: rs) = .ok l) :
    ∃ p ps, enrichRow n r = .ok p ∧ enrichAll (n + 1) rs = .ok ps ∧ l = p :: ps := by
  cases he : enrichRow n r with
  | error e => simp [enrichAll, he, Except.bind, bind] at h
  | ok p =>
    cases hes : enrichAll (n + 1) rs with
    | error e => simp [enrichAll, he, hes, Except.bind, bind] at h
    | ok ps =>
      refine ⟨p, ps, rfl, rfl, ?_⟩
      simp only [enrichAll, he, hes, Except.bind, bind] at h
      cases h
      rfl

theorem enrichAll_length {rows : List RawRow} {n : Nat} {prows : List PRow}
    (h : enrichAll n rows = .ok prows) : prows.length = rows.length := by
  induction rows generalizing n prows with
  | nil =>
    simp only [enrichAll] at h
    cases h
    rfl
  | cons r rs ih =>
    obtain ⟨p, ps, hp, hps, rfl⟩ := enrichAll_ok_cons h
    simp [ih hps]

theorem enrichAll_mem {rows : List RawRow} {n : Nat} {prows : List PRow}
    (h : enrichAll n rows = .ok prows) {p : PRow} (hp : p ∈ prows) :
    ∃ i r, enrichRow i r = .ok p := by
  induction rows generalizing n prows with
  | nil =>
    simp only [enrichAll] at h
    cases h
    simp at hp
  | cons r rs ih =>
    obtain ⟨p0, ps, hp0, hps, rfl⟩ := enrichAll_ok_cons h
    rcases List.mem_cons.mp hp with rfl | hmem
    · exact ⟨n, r, hp0⟩
    · exact ih hps hmem

theorem enrichAll_idx_get {rows : List RawRow} {n : Nat} {prows : List PRow}
    (h : enrichAll n rows = .ok prows) {p : PRow} (hp : p ∈ prows) :
    n ≤ p.idx ∧ prows.get? (p.idx - n) = some p := by
  induction rows generalizing n prows with
  | nil =>
    simp only [enrichAll] at h
    cases h
    simp at hp
  | cons r rs ih =>
    obtain ⟨p0, ps, hp0, hps, rfl⟩ := enrichAll_ok_cons h
    rcases List.mem_cons.mp hp with rfl | hmem
    · have hidx : p.idx = n := (enrichRow_ok hp0).2.1
      simp [hidx]
    · obtain ⟨hle, hget⟩ := ih hps hmem
      constructor
      · omega
      · have hd : p.idx - n = (p.idx - (n + 1)) + 1 := by omega
        rw [hd]
        simpa using hget

theorem enrichAll_idx_nodup {rows : List RawRow} {n : Nat} {prows : List PRow}
    (h : enrichAll n rows = .ok prows) : (prows.map PRow.idx).Nodup := by
  induction rows generalizing n prows with
  | nil =>
    simp only [enrichAll] at h
    cases h
    simp
  | cons r rs ih =>
    obtain ⟨p0, ps, hp0, hps, rfl⟩ := enrichAll_ok_cons h
    have hidx : p0.idx = n := (enrichRow_ok hp0).2.1
    simp only [List.map_cons, List.nodup_cons]
    refine ⟨?_, ih hps⟩
    intro hmem
    obtain ⟨q, hq, hqe⟩ := List.mem_map.mp hmem
    have := (enrichAll_idx_get hps hq).1
    omega

theorem enrichAll_get? {rows : List RawRow} {n : Nat} {prows : List PRow}
    (h : enrichAll n rows = .ok prows) (i : Nat) :
    prows.get? i = (rows.get? i).bind (fun r => (enrichRow (n + i) r).toOption) := by
  induction rows generalizing n prows i with
  | nil =>
    simp only [enrichAll] at h
    cases h
    simp
  | cons r rs ih =>
    obtain ⟨p0, ps, hp0, hps, rfl⟩ := enrichAll_ok_cons h
    cases i with
    | zero => simp [hp0, Except.toOption]
    | succ i =>
      have hi := ih hps i
      have hn : n + 1 + i = n + (i + 1) := by omega
      rw [hn] at hi
      exact hi

theorem findIdx?_idx_of_nodup {l : List PRow} (hnd : (l.map PRow.idx).Nodup)
    {j : Nat} {r : PRow} (hj : l.get? j = some r) :
    l.findIdx? (fun x => x.idx == r.idx) = some j := by
  induction l generalizing j with
  | nil => simp at hj
  | cons x xs ih =>
    simp only [List.map_cons, List.nodup_cons] at hnd
    cases j with
    | zero =>
      simp only [List.get?] at hj
      cases hj
      simp [List.findIdx?_cons]
    | succ j =>
      simp only [List.get?] at hj
      have hx : (x.idx == r.idx) = false := by
        have hrmem : r ∈ xs := List.get?_mem hj
        have hin : r.idx ∈ xs.map PRow.idx := List.mem_map_of_mem _ hrmem
        refine beq_eq_false_iff_ne.mpr ?_
        intro he
        exact hnd.1 (he ▸ hin)
      rw [List.findIdx?_cons, hx]
      simp only [Bool.false_eq_true, if_false]
      rw [List.findIdx?_succ, ih hnd.2 hj]
      rfl

theorem futureConflict_cases (prows : List PRow) (lag : Nat) (r : PRow) :
    futureConflict prows lag r = 0 ∨
      ∃ x, x ∈ prows ∧ x.group_country_id = r.group_country_id ∧
        x.any_conflict = futureConflict prows lag r := by
  cases hf : (entityPartition prows r.group_country_id).findIdx? (fun x => x.idx == r.idx) with
  | none =>
    left
    unfold futureConflict
    rw [hf]
  | some j =>
    cases hg : (entityPartition prows r.group_country_id).get? (j + lag) with
    | none =>
      left
      unfold futureConflict
      rw [hf]
      show (Option.map PRow.any_conflict
        ((entityPartition prows r.group_country_id).get? (j + lag))).getD 0 = 0
      rw [hg]
      rfl
    | some x =>
      right
      have hval : futureConflict prows lag r = x.any_conflict := by
        unfold futureConflict
        rw [hf]
        show (Option.map PRow.any_conflict
          ((entityPartition prows r.group_country_id).get? (j + lag))).getD 0 = x.any_conflict
        rw [hg]
        rfl
      have hx : x ∈ entityPartition prows r.group_country_id := List.get?_mem hg
      have hx2 := List.mem_filter.mp hx
      refine ⟨x, ?_, ?_, hval.symm⟩
      · exact (List.mem_insertionSort rowLe).mp hx2.1
      · exact beq_iff_eq.mp hx2.2

theorem enrichRow_any_conflict {i : Nat} {r : RawRow} {p : PRow}
    (h : enrichRow i r = .ok p) :
    p.any_conflict
      = computeAnyConflict r.incidence_flag r.incidence_terr_flag r.incidence_gov_flag :=
  (enrichRow_ok h).2.2.2.2.2.2.2.2.2.2.2.1

theorem futureConflict_binary {prows : List PRow}
    (hb : ∀ x : PRow, x ∈ prows → x.any_conflict = 0 ∨ x.any_conflict = 1)
    (lag : Nat) (r : PRow) :
    futureConflict prows lag r = 0 ∨ futureConflict prows lag r = 1 := by
  rcases futureConflict_cases prows lag r with h0 | ⟨x, hx, _, hv⟩
  · exact Or.inl h0
  · rw [← hv]
    exact hb x hx

/-! ## Example inputs used by witnesses and counterexamples -/

/-- A well-formed all-numeric record with the given power rank. -/
def rankRow (q : Int) : RawRow :=
  { gwgroupid := "10", countries_gwid := "20", year := .num 2000, status_pwrrank := .num q,
    upgraded10 := .num 0, geo_concentrated := .num 0, incidence_flag := .num 0,
    incidence_terr_flag := .num 0, incidence_gov_flag := .num 0 }

/-- A record whose conflict flag arrives as the string "1" (as happens when
a CSV flag column contains a non-numeric entry, so pandas reads the whole
column as strings). -/
def strFlagRow : RawRow :=
  { gwgroupid := "7", countries_gwid := "8", year := .num 1999, status_pwrrank := .num 5,
    upgraded10 := .num 0, geo_concentrated := .num 0, incidence_flag := .str "1",
    incidence_terr_flag := .num 0, incidence_gov_flag := .num 0 }

/-! ## Claim theorems: preprocessing -/

/-- C9: a row whose `status_pwrrank` is the number `q` gets `excluded = 1`
exactly when `q` is at most `EXCLUDED_THRESHOLD` (3), and `excluded = 0`
exactly when `q` exceeds it: the boundary value 3 is excluded, 4 is not. -/
theorem excluded_threshold_boundary (i : Nat) (r : RawRow) (p : PRow) (q : Int)
    (hq : r.status_pwrrank = Raw.num q) (h : enrichRow i r = .ok p) :
    (p.excluded = 1 ↔ q ≤ EXCLUDED_THRESHOLD) ∧
    (p.excluded = 0 ↔ ¬ q ≤ EXCLUDED_THRESHOLD) := by
  have hval : p.excluded = if q ≤ 3 then 1 else 0 := by
    have hce := (enrichRow_ok h).1
    rw [hq] at hce
    simp only [computeExcluded, rawLeNum, Except.map, Except.ok.injEq] at hce
    rw [← hce]
    by_cases hle : q ≤ 3 <;> simp [hle]
  rw [hval]
  unfold EXCLUDED_THRESHOLD
  by_cases hle : q ≤ 3 <;> simp [hle]

/-- Witness for C9 at the boundary: rank 3 is excluded, rank 4 is not. -/
theorem excluded_threshold_boundary_witness :
    (getOk (enrichRow 0 (rankRow 3))).excluded = 1 ∧
    (getOk (enrichRow 0 (rankRow 4))).excluded = 0 :=
  ⟨(excluded_threshold_boundary 0 (rankRow 3) (getOk (enrichRow 0 (rankRow 3))) 3 rfl
      rfl).1.mpr (by decide),
   (excluded_threshold_boundary 0 (rankRow 4) (getOk (enrichRow 0 (rankRow 4))) 4 rfl
      rfl).2.mpr (by decide)⟩

/-- C5: the group-wise shift never pulls a value across entities - for any
enriched dataset, any horizon and any row, the assigned `future_conflict`
value is either the zero fill or the `any_conflict` of some row with the
same `group_country_id`. -/
theorem future_conflict_entity_isolation (prows : List PRow) (lag : Nat) (r : PRow) :
    futureConflict prows lag r = 0 ∨
      ∃ x, x ∈ prows ∧ x.group_country_id = r.group_country_id ∧
        x.any_conflict = futureConflict prows lag r :=
  futureConflict_cases prows lag r

/-- C10: whenever preprocessing returns successfully, every derived value
(`excluded`, `any_conflict`, the three `future_conflict` columns) of every
output row is the integer 0 or 1, never a missing value. -/
theorem derived_fields_binary (rows : List RawRow) (out : List OutRow)
    (h : load_and_preprocess_data rows = .ok out) (o : OutRow) (ho : o ∈ out) :
    (o.excluded = 0 ∨ o.excluded = 1) ∧
    (o.any_conflict = 0 ∨ o.any_conflict = 1) ∧
    (o.future_conflict_1yr = 0 ∨ o.future_conflict_1yr = 1) ∧
    (o.future_conflict_2yr = 0 ∨ o.future_conflict_2yr = 1) ∧
    (o.future_conflict_3yr = 0 ∨ o.future_conflict_3yr = 1) := by
  cases he : enrichAll 0 rows with
  | error e => simp [load_and_preprocess_data, he, bind, Except.bind] at h
  | ok prows =>
    simp only [load_and_preprocess_data, he, bind, Except.bind] at h
    cases h
    obtain ⟨p, hp, rfl⟩ := List.mem_map.mp ho
    have hbin : ∀ x : PRow, x ∈ prows → x.any_conflict = 0 ∨ x.any_conflict = 1 := by
      intro x hx
      obtain ⟨i2, r2, hr2⟩ := enrichAll_mem he hx
      rw [enrichRow_any_conflict hr2]
      exact computeAnyConflict_binary _ _ _
    obtain ⟨i2, r2, hr2⟩ := enrichAll_mem he hp
    refine ⟨?_, hbin p hp, ?_, ?_, ?_⟩
    · exact computeExcluded_binary (enrichRow_ok hr2).1
    · exact futureConflict_binary hbin 1 p
    · exact futureConflict_binary hbin 2 p
    · exact futureConflict_binary hbin 3 p

/-- The first output row of preprocessing the single-record dataset
`[rankRow 2]`. -/
def binaryOutRow : OutRow :=
  (getOk (load_and_preprocess_data [rankRow 2])).getD 0 default

/-- Witness for C10 on a concrete dataset. -/
theorem derived_fields_binary_witness :
    (binaryOutRow.excluded = 0 ∨ binaryOutRow.excluded = 1) ∧
    (binaryOutRow.any_conflict = 0 ∨ binaryOutRow.any_conflict = 1) ∧
    (binaryOutRow.future_conflict_1yr = 0 ∨ binaryOutRow.future_conflict_1yr = 1) ∧
    (binaryOutRow.future_conflict_2yr = 0 ∨ binaryOutRow.future_conflict_2yr = 1) ∧
    (binaryOutRow.future_conflict_3yr = 0 ∨ binaryOutRow.future_conflict_3yr = 1) :=
  derived_fields_binary [rankRow 2] (getOk (load_and_preprocess_data [rankRow 2]))
    rfl binaryOutRow (by decide)

/-- Modelled from the spec (section 4.1 step order): numeric coercion FIRST,
then the derived indicators computed from the coerced values.  The source
function derives first and coerces afterwards; this definition exists only
to compare the two orders. -/
def enrichRowSpecOrder (i : Nat) (r : RawRow) : Except String PRow := do
  let f1 := to_numeric_coerce r.incidence_flag
  let f2 := to_numeric_coerce r.incidence_terr_flag
  let f3 := to_numeric_coerce r.incidence_gov_flag
  let status := to_numeric_coerce r.status_pwrrank
  let excl ← computeExcluded status
  .ok { idx := i
        gwgroupid := r.gwgroupid
        countries_gwid := r.countries_gwid
        year := to_numeric_coerce r.year
        status_pwrrank := status
        upgraded10 := to_numeric_coerce r.upgraded10
        geo_concentrated := to_numeric_coerce r.geo_concentrated
        incidence_flag := f1
        incidence_terr_flag := f2
        incidence_gov_flag := f3
        excluded := excl
        any_conflict := computeAnyConflict f1 f2 f3
        group_country_id := r.gwgroupid ++ "_" ++ r.countries_gwid }

/-- C6 counterexample: on a row whose conflict flag is the string "1", the
source computes `any_conflict = 0` even though the flag's coerced value is
the number 1 - so the derived indicators are NOT functions of the coerced
values; the spec-order variant yields 1. -/
theorem coercion_order_cex :
    (enrichRow 0 strFlagRow).map PRow.any_conflict = .ok 0 ∧
    to_numeric_coerce strFlagRow.incidence_flag = .num 1 ∧
    (enrichRowSpecOrder 0 strFlagRow).map PRow.any_conflict = .ok 1 :=
  ⟨rfl, rfl, rfl⟩

/-- C6 amended: coercion happens AFTER the derived fields are computed -
`any_conflict` and `excluded` are functions of the raw pre-coercion cells,
while the stored numeric columns hold the coerced values. -/
theorem derived_indicators_use_raw_values (i : Nat) (r : RawRow) (p : PRow)
    (h : enrichRow i r = .ok p) :
    p.any_conflict
        = computeAnyConflict r.incidence_flag r.incidence_terr_flag r.incidence_gov_flag ∧
    computeExcluded r.status_pwrrank = .ok p.excluded ∧
    p.status_pwrrank = to_numeric_coerce r.status_pwrrank ∧
    p.incidence_flag = to_numeric_coerce r.incidence_flag ∧
    p.incidence_terr_flag = to_numeric_coerce r.incidence_terr_flag ∧
    p.incidence_gov_flag = to_numeric_coerce r.incidence_gov_flag := by
  obtain ⟨h1, _, _, _, _, h6, _, _, h9, h10, h11, h12, _⟩ := enrichRow_ok h
  exact ⟨h12, h1, h6, h9, h10, h11⟩

/-- Witness for the amended C6 on the string-flag row. -/
theorem derived_indicators_use_raw_values_witness :
    (getOk (enrichRow 0 strFlagRow)).any_conflict
      = computeAnyConflict strFlagRow.incidence_flag strFlagRow.incidence_terr_flag
          strFlagRow.incidence_gov_flag :=
  (derived_indicators_use_raw_values 0 strFlagRow (getOk (enrichRow 0 strFlagRow)) rfl).1

/-- C1: if the enriched row `r` sits at position `j` of its sorted entity
partition, then for any horizon the shift assigns it the `any_conflict` of
the row `j + lag` positions into that partition - a position-based lookup
with zero fill when no such row exists - and the preprocessed output
attaches exactly these values to `r`'s original row position. -/
theorem future_conflict_position_shift (rows : List RawRow) (prows : List PRow)
    (r : PRow) (j lag : Nat)
    (henr : enrichAll 0 rows = .ok prows) (hmem : r ∈ prows)
    (hj : (entityPartition prows r.group_country_id).get? j = some r) :
    futureConflict prows lag r
      = (((entityPartition prows r.group_country_id).get? (j + lag)).map
          PRow.any_conflict).getD 0 ∧
    ∃ out, load_and_preprocess_data rows = .ok out ∧
      out.get? r.idx = some (attachFutures prows r) := by
  have hnd : (prows.map PRow.idx).Nodup := enrichAll_idx_nodup henr
  have hperm : (sortRows prows).Perm prows := List.perm_insertionSort rowLe prows
  have hndSort : ((sortRows prows).map PRow.idx).Nodup :=
    ((hperm.map PRow.idx).nodup_iff).mpr hnd
  have hndPart : ((entityPartition prows r.group_country_id).map PRow.idx).Nodup :=
    List.Nodup.sublist (List.Sublist.map _ (List.filter_sublist _)) hndSort
  have hfind := findIdx?_idx_of_nodup hndPart hj
  constructor
  · unfold futureConflict
    rw [hfind]
  · refine ⟨prows.map (attachFutures prows), ?_, ?_⟩
    · simp [load_and_preprocess_data, henr, bind, Except.bind]
    · have hg : prows.get? r.idx = some r := by
        have h2 := enrichAll_idx_get henr hmem
        simpa using h2.2
      rw [List.get?_map, hg]
      rfl

/-- One record of the lag-correctness scenario: entity (1001, 200), given
year, `incidence_flag` set to `b` (so `any_conflict = b`). -/
def scenarioRow (b : Int) (y : Int) : RawRow :=
  { gwgroupid := "1001", countries_gwid := "200", year := .num y, status_pwrrank := .num 2,
    upgraded10 := .num 0, geo_concentrated := .num 1, incidence_flag := .num b,
    incidence_terr_flag := .num 0, incidence_gov_flag := .num 0 }

/-- The spec's lag-correctness scenario: one entity, years 2000-2004,
conflict pattern [0, 1, 0, 1, 0]. -/
def lagScenario : List RawRow :=
  [scenarioRow 0 2000, scenarioRow 1 2001, scenarioRow 0 2002,
   scenarioRow 1 2003, scenarioRow 0 2004]

/-- The enriched rows of the lag-correctness scenario. -/
def lagScenarioP : List PRow := getOk (enrichAll 0 lagScenario)

/-- Witness for C1 on the spec's scenario: `future_conflict[1]` is 1 at
year 2000, 0 at year 2003 and 0 at year 2004 (no future row). -/
theorem future_conflict_position_shift_witness :
    futureConflict lagScenarioP 1 (lagScenarioP.getD 0 default) = 1 ∧
    futureConflict lagScenarioP 1 (lagScenarioP.getD 3 default) = 0 ∧
    futureConflict lagScenarioP 1 (lagScenarioP.getD 4 default) = 0 :=
  ⟨((future_conflict_position_shift lagScenario lagScenarioP
      (lagScenarioP.getD 0 default) 0 1 rfl (by decide) (by decide)).1).trans (by decide),
   ((future_conflict_position_shift lagScenario lagScenarioP
      (lagScenarioP.getD 3 default) 3 1 rfl (by decide) (by decide)).1).trans (by decide),
   ((future_conflict_position_shift lagScenario lagScenarioP
      (lagScenarioP.getD 4 default) 4 1 rfl (by decide) (by decide)).1).trans (by decide)⟩

/-- C8 counterexample: preprocessing is not purely append-only over the
input rows - the numeric-coercion step rewrites designated columns in
place, so an output row can differ from its input row in a non-derived
field (here a flag supplied as the string "1" is stored as the number 1). -/
theorem preprocess_rewrites_columns_cex :
    strFlagRow.incidence_flag = Raw.str "1" ∧
    (load_and_preprocess_data [strFlagRow]).map
        (List.map (fun o : OutRow => o.incidence_flag))
      = .ok [Raw.num 1] ∧
    Raw.num 1 ≠ Raw.str "1" :=
  ⟨rfl, rfl, by decide⟩

/-- C8 amended: the output has exactly the input rows in the input order -
identifier columns and row positions unchanged, numeric columns replaced by
their coerced values, derived fields appended - and every `future_conflict`
value is attached to the row with the matching original position, despite
the internal sort. -/
theorem preprocess_preserves_rows (rows : List RawRow) (out : List OutRow)
    (h : load_and_preprocess_data rows = .ok out) :
    out.length = rows.length ∧
    (∀ i : Nat,
      (out.get? i).map (fun o => o.idx) = (rows.get? i).map (fun _ => i) ∧
      (out.get? i).map (fun o => o.gwgroupid) = (rows.get? i).map RawRow.gwgroupid ∧
      (out.get? i).map (fun o => o.countries_gwid) = (rows.get? i).map RawRow.countries_gwid ∧
      (out.get? i).map (fun o => o.group_country_id)
        = (rows.get? i).map (fun rr => rr.gwgroupid ++ "_" ++ rr.countries_gwid) ∧
      (out.get? i).map (fun o => o.year)
        = (rows.get? i).map (fun rr => to_numeric_coerce rr.year) ∧
      (out.get? i).map (fun o => o.status_pwrrank)
        = (rows.get? i).map (fun rr => to_numeric_coerce rr.status_pwrrank) ∧
      (out.get? i).map (fun o => o.upgraded10)
        = (rows.get? i).map (fun rr => to_numeric_coerce rr.upgraded10) ∧
      (out.get? i).map (fun o => o.geo_concentrated)
        = (rows.get? i).map (fun rr => to_numeric_coerce rr.geo_concentrated) ∧
      (out.get? i).map (fun o => o.incidence_flag)
        = (rows.get? i).map (fun rr => to_numeric_coerce rr.incidence_flag) ∧
      (out.get? i).map (fun o => o.incidence_terr_flag)
        = (rows.get? i).map (fun rr => to_numeric_coerce rr.incidence_terr_flag) ∧
      (out.get? i).map (fun o => o.incidence_gov_flag)
        = (rows.get? i).map (fun rr => to_numeric_coerce rr.incidence_gov_flag)) ∧
    ∃ prows, enrichAll 0 rows = .ok prows ∧
      ∀ p ∈ prows, out.get? p.idx = some (attachFutures prows p) := by
  cases he : enrichAll 0 rows with
  | error e => simp [load_and_preprocess_data, he, bind, Except.bind] at h
  | ok prows =>
    simp only [load_and_preprocess_data, he, bind, Except.bind] at h
    cases h
    refine ⟨by simpa using enrichAll_length he, ?_, prows, rfl, ?_⟩
    · intro i
      have hgi := enrichAll_get? he i
      simp only [Nat.zero_add] at hgi
      cases hri : rows.get? i with
      | none =>
        rw [hri] at hgi
        simp only [Option.bind] at hgi
        have hlen : prows.length ≤ i := List.get?_eq_none.mp hgi
        simp [List.get?_map, hgi, hri, hlen]
      | some rr =>
        rw [hri] at hgi
        simp only [Option.some_bind] at hgi
        cases hei : enrichRow i rr with
        | error e2 =>
          exfalso
          rw [hei] at hgi
          simp only [Except.toOption] at hgi
          have hlt : i < rows.length := (List.get?_eq_some.mp hri).1
          have hlen : prows.length = rows.length := enrichAll_length he
          have : prows.length ≤ i := List.get?_eq_none.mp hgi
          omega
        | ok p =>
          rw [hei] at hgi
          simp only [Except.toOption] at hgi
          obtain ⟨_, hidx, hgw, hcg, hyr, hst, hup, hgeo, hf1, hf2, hf3, _, hkey⟩ :=
            enrichRow_ok hei
          have hout : (prows.map (attachFutures prows)).get? i
              = some (attachFutures prows p) := by
            rw [List.get?_map, hgi]
            rfl
          simp only [hout, hri]
          simp [attachFutures, hidx, hgw, hcg, hyr, hst, hup, hgeo, hf1, hf2, hf3, hkey]
    · intro p hp
      have hg : prows.get? p.idx = some p := by
        have h2 := enrichAll_idx_get he hp
        simpa using h2.2
      rw [List.get?_map, hg]
      rfl

/-- Witness for the amended C8: length preservation on a concrete input. -/
theorem preprocess_preserves_rows_witness :
    (getOk (load_and_preprocess_data [rankRow 2])).length = [rankRow 2].length :=
  (preprocess_preserves_rows [rankRow 2]
    (getOk (load_and_preprocess_data [rankRow 2])) rfl).1

/-! ## Claim theorems: modeling -/

/-- C2: the optimizer fallback chain tries bfgs, newton, lbfgs (cap 1000
each) in order; the first strategy that runs without raising and reports
convergence is adopted and iteration stops there (the attempted-strategy
list ends at it); if no attempted strategy converges, the result of the
first strategy that ran without raising is retained and the convergence
flag stays false. -/
theorem robust_fitter_fallback_chain {α : Type} (fit : FitFn α) (formula : String) :
    (∀ r : α, fit formula "bfgs" (some 1000) none = .ok r true →
      findBestMethod fit formula
        = ({ bestMethod := "bfgs", bestConvergence := true, bestResult := some r },
           ["bfgs"])) ∧
    (∀ r : α, isConverged (fit formula "bfgs" (some 1000) none) = false →
      fit formula "newton" (some 1000) none = .ok r true →
      findBestMethod fit formula
        = ({ bestMethod := "newton", bestConvergence := true, bestResult := some r },
           ["bfgs", "newton"])) ∧
    (∀ r : α, isConverged (fit formula "bfgs" (some 1000) none) = false →
      isConverged (fit formula "newton" (some 1000) none) = false →
      fit formula "lbfgs" (some 1000) none = .ok r true →
      findBestMethod fit formula
        = ({ bestMethod := "lbfgs", bestConvergence := true, bestResult := some r },
           ["bfgs", "newton", "lbfgs"])) ∧
    (isConverged (fit formula "bfgs" (some 1000) none) = false →
      isConverged (fit formula "newton" (some 1000) none) = false →
      isConverged (fit formula "lbfgs" (some 1000) none) = false →
      (findBestMethod fit formula).1.bestConvergence = false ∧
      (findBestMethod fit formula).1.bestResult
        = firstRanResult [fit formula "bfgs" (some 1000) none,
            fit formula "newton" (some 1000) none,
            fit formula "lbfgs" (some 1000) none] ∧
      (findBestMethod fit formula).2 = ["bfgs", "newton", "lbfgs"]) := by
  refine ⟨?_, ?_, ?_, ?_⟩
  · intro r h1
    simp [findBestMethod, fallbackChain, optimization_methods, h1]
  · intro r hc1 h2
    rcases hb : fit formula "bfgs" (some 1000) none with _ | ⟨r1, b1⟩
    · simp [findBestMethod, fallbackChain, optimization_methods, hb, h2]
    · cases b1 with
      | false => simp [findBestMethod, fallbackChain, optimization_methods, hb, h2]
      | true => rw [hb] at hc1; simp [isConverged] at hc1
  · intro r hc1 hc2 h3
    rcases hb : fit formula "bfgs" (some 1000) none with _ | ⟨r1, b1⟩ <;>
      rcases hn : fit formula "newton" (some 1000) none with _ | ⟨r2, b2⟩
    · simp [findBestMethod, fallbackChain, optimization_methods, hb, hn, h3]
    · cases b2 with
      | false => simp [findBestMethod, fallbackChain, optimization_methods, hb, hn, h3]
      | true => rw [hn] at hc2; simp [isConverged] at hc2
    · cases b1 with
      | false => simp [findBestMethod, fallbackChain, optimization_methods, hb, hn, h3]
      | true => rw [hb] at hc1; simp [isConverged] at hc1
    · cases b1 with
      | true => rw [hb] at hc1; simp [isConverged] at hc1
      | false => cases b2 with
        | true => rw [hn] at hc2; simp [isConverged] at hc2
        | false => simp [findBestMethod, fallbackChain, optimization_methods, hb, hn, h3]
  · intro hc1 hc2 hc3
    rcases hb : fit formula "bfgs" (some 1000) none with _ | ⟨r1, b1⟩ <;>
      rcases hn : fit formula "newton" (some 1000) none with _ | ⟨r2, b2⟩ <;>
        rcases hl : fit formula "lbfgs" (some 1000) none with _ | ⟨r3, b3⟩ <;>
      rw [hb] at hc1 <;> rw [hn] at hc2 <;> rw [hl] at hc3 <;>
      (try cases b1) <;> (try cases b2) <;> (try cases b3) <;>
      simp_all [findBestMethod, fallbackChain, optimization_methods,
        firstRanResult, isConverged]

/-- The spec's synthetic optimizer stub: the first strategy always raises,
the second converges. -/
def stubFit : FitFn Int := fun _ method _ _ =>
  if method = "newton" then .ok 7 true else .raised

/-- Witness for C2 on the stub: the chain adopts newton's result, reports
convergence, and attempted exactly bfgs then newton. -/
theorem robust_fitter_fallback_chain_witness :
    findBestMethod stubFit selection_formula
      = ({ bestMethod := "newton", bestConvergence := true, bestResult := some 7 },
         ["bfgs", "newton"]) :=
  (robust_fitter_fallback_chain stubFit selection_formula).2.1 7 rfl rfl

/-- An optimizer that raises on every strategy for the probe formula (which
is also the model-5 formula) and succeeds on every other formula. -/
def fitRaisesOnFull : FitFn Int := fun f _ _ _ =>
  if f = selection_formula then .raised else .ok 1 true

/-- C3 counterexample: when every strategy raises, the method-selection
pass raises no `ModelFitError` (no such error exists in the code) - it
silently keeps the default method bfgs with no result - and the later
model-5 fit's exception aborts the whole family: models 1-4 are discarded
and no summary table with an error marker is produced. -/
theorem model_fit_error_cex :
    (findBestMethod fitRaisesOnFull selection_formula).1
      = { bestMethod := "bfgs", bestConvergence := false, bestResult := none } ∧
    build_statistical_models fitRaisesOnFull (.ok 9 true) (fun r => .ok r true)
      = .error formula_model5 :=
  ⟨rfl, rfl⟩

/-- C3 amended: an all-raising selection pass ends with the default method,
no result and no error; an exception while fitting one of the five
current-outcome specs propagates and aborts the remaining specs and the
summary table; only the future-conflict section's exceptions are caught,
dropping the future entries while keeping the current family. -/
theorem fit_exception_propagation {α : Type} (fit : FitFn α)
    (p : FitOutcome α) (mg : α → FitOutcome α) :
    (∀ formula : String,
      fit formula "bfgs" (some 1000) none = .raised →
      fit formula "newton" (some 1000) none = .raised →
      fit formula "lbfgs" (some 1000) none = .raised →
      findBestMethod fit formula
        = ({ bestMethod := "bfgs", bestConvergence := false, bestResult := none },
           ["bfgs", "newton", "lbfgs"])) ∧
    (∀ (m : String) (r1 r2 : α) (b1 b2 : Bool),
      (findBestMethod fit selection_formula).1.bestMethod = m →
      fit formula_model1 m (some 1000) none = .ok r1 b1 →
      fit formula_model2 m (some 1000) none = .ok r2 b2 →
      fit formula_model3 m (some 1000) none = .raised →
      build_statistical_models fit p mg = .error formula_model3) ∧
    (∀ (m : String) (r1 r2 r3 r4 r5 rr rp m1 m5 : α)
       (b1 b2 b3 b4 b5 brr bp bm1 bm5 : Bool),
      (findBestMethod fit selection_formula).1.bestMethod = m →
      fit formula_model1 m (some 1000) none = .ok r1 b1 →
      fit formula_model2 m (some 1000) none = .ok r2 b2 →
      fit formula_model3 m (some 1000) none = .ok r3 b3 →
      fit formula_model4 m (some 1000) none = .ok r4 b4 →
      fit formula_model5 m (some 1000) none = .ok r5 b5 →
      fit formula_model5 m (some 1000) (some "HC0") = .ok rr brr →
      p = .ok rp bp →
      mg r1 = .ok m1 bm1 →
      mg r5 = .ok m5 bm5 →
      fit formula_model1f m (some 1000) none = .raised →
      build_statistical_models fit p mg
        = .ok [("model1", .fit r1), ("model2", .fit r2), ("model3", .fit r3),
               ("model4", .fit r4), ("model5", .fit r5),
               ("robust_model5", .fit rr), ("panel_model", .panel rp),
               ("summary_table", .summary [("Model 1", r1), ("Model 2", r2),
                 ("Model 3", r3), ("Model 4", r4), ("Model 5", r5)]),
               ("model1_margins", .margins m1), ("model5_margins", .margins m5)]) := by
  refine ⟨?_, ?_, ?_⟩
  · intro formula h1 h2 h3
    simp [findBestMethod, fallbackChain, optimization_methods, h1, h2, h3]
  · intro m r1 r2 b1 b2 hm h1 h2 h3
    simp [build_statistical_models, fitOrRaise, hm, h1, h2, h3, bind, Except.bind]
  · intro m r1 r2 r3 r4 r5 rr rp m1 m5 b1 b2 b3 b4 b5 brr bp bm1 bm5
      hm h1 h2 h3 h4 h5 hrr hp hm1 hm5 h1f
    subst hp
    simp [build_statistical_models, fitOrRaise, hm, h1, h2, h3, h4, h5, hrr,
      hm1, hm5, h1f, bind, Except.bind]

/-- An optimizer whose every attempt raises. -/
def fitAllRaise : FitFn Int := fun _ _ _ _ => .raised

/-- An optimizer that raises exactly on the model-3 formula. -/
def fitRaisesModel3 : FitFn Int := fun f _ _ _ =>
  if f = formula_model3 then .raised else .ok 0 true

/-- Witness for the amended C3: the all-raising chain returns the default
silently, and a model-3 exception aborts the family. -/
theorem fit_exception_propagation_witness :
    findBestMethod fitAllRaise "f"
      = ({ bestMethod := "bfgs", bestConvergence := false, bestResult := none },
         ["bfgs", "newton", "lbfgs"]) ∧
    build_statistical_models fitRaisesModel3 (.ok 0 true) (fun r => .ok r true)
      = .error formula_model3 :=
  ⟨(fit_exception_propagation fitAllRaise (.ok 0 true) (fun r => .ok r true)).1
      "f" rfl rfl rfl,
   (fit_exception_propagation fitRaisesModel3 (.ok 0 true) (fun r => .ok r true)).2.1
      "bfgs" 0 0 true true rfl rfl rfl rfl⟩

/-- An optimizer under which spec 1's own fallback chain would converge
immediately with bfgs (value 10), but the probe formula converges only with
newton - exposing that the source runs one global chain, not per-spec
chains. -/
def fitPerSpec : FitFn Int := fun f m _ _ =>
  if f = formula_model1 then (if m = "bfgs" then .ok 10 true else .ok 20 true)
  else if m = "bfgs" then .ok 1 false else .ok 2 true

/-- C4 counterexample: the stored model-1 fit (20, obtained with the
globally selected method newton) is not the result model 1's own fallback
chain would adopt (10 with bfgs, converged) - so the fallback chain is NOT
invoked once per spec. -/
theorem per_spec_fallback_cex :
    (findBestMethod fitPerSpec formula_model1).1
      = { bestMethod := "bfgs", bestConvergence := true, bestResult := some 10 } ∧
    (build_statistical_models fitPerSpec (.ok 0 true) (fun r => .ok r true)).map
        (fun l => l.lookup "model1")
      = .ok (some (.fit 20)) ∧
    ResultVal.fit (20 : Int) ≠ ResultVal.fit 10 :=
  ⟨rfl, rfl, by decide⟩

/-- C4 amended: the fallback chain runs exactly once per run, on the full
current-outcome formula; every spec - the five current models, the robust
refit, and the two future models - is then fitted in a single attempt with
that one selected method, and no fit reads another spec's result. -/
theorem single_selection_pass_all_specs {α : Type} (fit : FitFn α)
    (p : FitOutcome α) (mg : α → FitOutcome α) (m : String)
    (r1 r2 r3 r4 r5 rr rp m1 m5 r1f r5f : α)
    (b1 b2 b3 b4 b5 brr bp bm1 bm5 b1f b5f : Bool)
    (hm : (findBestMethod fit selection_formula).1.bestMethod = m)
    (h1 : fit formula_model1 m (some 1000) none = .ok r1 b1)
    (h2 : fit formula_model2 m (some 1000) none = .ok r2 b2)
    (h3 : fit formula_model3 m (some 1000) none = .ok r3 b3)
    (h4 : fit formula_model4 m (some 1000) none = .ok r4 b4)
    (h5 : fit formula_model5 m (some 1000) none = .ok r5 b5)
    (hrr : fit formula_model5 m (some 1000) (some "HC0") = .ok rr brr)
    (hp : p = .ok rp bp)
    (hm1 : mg r1 = .ok m1 bm1)
    (hm5 : mg r5 = .ok m5 bm5)
    (h1f : fit formula_model1f m (some 1000) none = .ok r1f b1f)
    (h5f : fit formula_model5f m (some 1000) none = .ok r5f b5f) :
    build_statistical_models fit p mg
      = .ok [("model1", .fit r1), ("model2", .fit r2), ("model3", .fit r3),
             ("model4", .fit r4), ("model5", .fit r5), ("robust_model5", .fit rr),
             ("panel_model", .panel rp),
             ("summary_table", .summary [("Model 1", r1), ("Model 2", r2),
               ("Model 3", r3), ("Model 4", r4), ("Model 5", r5)]),
             ("model1_margins", .margins m1), ("model5_margins", .margins m5),
             ("model1f", .fit r1f), ("model5f", .fit r5f),
             ("future_summary_table", .summary [("Future Model 1", r1f),
               ("Future Model 5", r5f)])] := by
  subst hp
  simp [build_statistical_models, fitOrRaise, hm, h1, h2, h3, h4, h5, hrr,
    hm1, hm5, h1f, h5f, bind, Except.bind]

/-- An optimizer whose result payload records the method used. -/
def fitMethodPayload : FitFn String := fun _ m _ _ => .ok m true

/-- Witness for the amended C4: with the method recorded as payload, every
stored fit of every spec used the single probe-selected method bfgs. -/
theorem single_selection_pass_all_specs_witness :
    build_statistical_models fitMethodPayload (.ok "plm" true) (fun r => .ok r true)
      = .ok [("model1", .fit "bfgs"), ("model2", .fit "bfgs"), ("model3", .fit "bfgs"),
             ("model4", .fit "bfgs"), ("model5", .fit "bfgs"), ("robust_model5", .fit "bfgs"),
             ("panel_model", .panel "plm"),
             ("summary_table", .summary [("Model 1", "bfgs"), ("Model 2", "bfgs"),
               ("Model 3", "bfgs"), ("Model 4", "bfgs"), ("Model 5", "bfgs")]),
             ("model1_margins", .margins "bfgs"), ("model5_margins", .margins "bfgs"),
             ("model1f", .fit "bfgs"), ("model5f", .fit "bfgs"),
             ("future_summary_table", .summary [("Future Model 1", "bfgs"),
               ("Future Model 5", "bfgs")])] :=
  single_selection_pass_all_specs fitMethodPayload (.ok "plm" true) (fun r => .ok r true)
    "bfgs" "bfgs" "bfgs" "bfgs" "bfgs" "bfgs" "bfgs" "plm" "bfgs" "bfgs" "bfgs" "bfgs"
    true true true true true true true true true true true
    rfl rfl rfl rfl rfl rfl rfl rfl rfl rfl rfl rfl

/-- An optimizer whose result payload records the formula fitted. -/
def fitFormulaPayload : FitFn String := fun f _ _ _ => .ok f true

/-- C7 counterexample: in the primary modeling module the future-conflict
summary has exactly TWO columns (specs 1 and 5), not five - so the family
for the future outcome is not the five nested specifications. -/
theorem future_family_size_cex :
    (build_statistical_models fitFormulaPayload (.ok "plm" true) (fun r => .ok r true)).map
        (fun l => l.lookup "future_summary_table")
      = .ok (some (.summary [("Future Model 1", formula_model1f),
          ("Future Model 5", formula_model5f)])) ∧
    [("Future Model 1", formula_model1f), ("Future Model 5", formula_model5f)].length ≠ 5 :=
  ⟨rfl, by decide⟩

/-- C7 amended: the `any_conflict` family is exactly the five nested specs
in the fixed order, preserved in the summary columns, in both modeling
modules; for the future outcome (horizon 1 only), the primary module fits
and summarizes only specs 1 and 5, while the alternate figures module fits
all five in order. -/
theorem nested_family_order {α : Type} (fit : FitFn α)
    (p : FitOutcome α) (mg : α → FitOutcome α) :
    (∀ (m : String) (r1 r2 r3 r4 r5 rr rp m1 m5 r1f r5f : α)
       (b1 b2 b3 b4 b5 brr bp bm1 bm5 b1f b5f : Bool),
      (findBestMethod fit selection_formula).1.bestMethod = m →
      fit formula_model1 m (some 1000) none = .ok r1 b1 →
      fit formula_model2 m (some 1000) none = .ok r2 b2 →
      fit formula_model3 m (some 1000) none = .ok r3 b3 →
      fit formula_model4 m (some 1000) none = .ok r4 b4 →
      fit formula_model5 m (some 1000) none = .ok r5 b5 →
      fit formula_model5 m (some 1000) (some "HC0") = .ok rr brr →
      p = .ok rp bp →
      mg r1 = .ok m1 bm1 →
      mg r5 = .ok m5 bm5 →
      fit formula_model1f m (some 1000) none = .ok r1f b1f →
      fit formula_model5f m (some 1000) none = .ok r5f b5f →
      (build_statistical_models fit p mg).map (fun l => l.lookup "summary_table")
        = .ok (some (.summary [("Model 1", r1), ("Model 2", r2), ("Model 3", r3),
            ("Model 4", r4), ("Model 5", r5)])) ∧
      (build_statistical_models fit p mg).map (fun l => l.lookup "future_summary_table")
        = .ok (some (.summary [("Future Model 1", r1f), ("Future Model 5", r5f)]))) ∧
    (∀ (r1 r2 r3 r4 r5 r1f r2f r3f r4f r5f : α)
       (b1 b2 b3 b4 b5 b1f b2f b3f b4f b5f : Bool),
      fit formula_model1 "bfgs" none none = .ok r1 b1 →
      fit formula_model2 "bfgs" none none = .ok r2 b2 →
      fit formula_model3 "bfgs" none none = .ok r3 b3 →
      fit formula_model4 "bfgs" none none = .ok r4 b4 →
      fit formula_model5 "bfgs" none none = .ok r5 b5 →
      fit formula_model1f "bfgs" none none = .ok r1f b1f →
      fit figures.formula_model2f "bfgs" none none = .ok r2f b2f →
      fit figures.formula_model3f "bfgs" none none = .ok r3f b3f →
      fit figures.formula_model4f "bfgs" none none = .ok r4f b4f →
      fit formula_model5f "bfgs" none none = .ok r5f b5f →
      figures.build_statistical_models fit
        = .ok [("model1", .fit r1), ("model2", .fit r2), ("model3", .fit r3),
               ("model4", .fit r4), ("model5", .fit r5),
               ("current_conflict_summary", .summary [("Model 1", r1), ("Model 2", r2),
                 ("Model 3", r3), ("Model 4", r4), ("Model 5", r5)]),
               ("model1f", .fit r1f), ("model2f", .fit r2f), ("model3f", .fit r3f),
               ("model4f", .fit r4f), ("model5f", .fit r5f),
               ("future_conflict_summary", .summary [("Model 1F", r1f), ("Model 2F", r2f),
                 ("Model 3F", r3f), ("Model 4F", r4f), ("Model 5F", r5f)])]) := by
  constructor
  · intro m r1 r2 r3 r4 r5 rr rp m1 m5 r1f r5f b1 b2 b3 b4 b5 brr bp bm1 bm5 b1f b5f
      hm h1 h2 h3 h4 h5 hrr hp hm1 hm5 h1f h5f
    subst hp
    constructor <;>
      (simp only [build_statistical_models, fitOrRaise, hm, h1, h2, h3, h4, h5, hrr,
        hm1, hm5, h1f, h5f, bind, Except.bind]
       rfl)
  · intro r1 r2 r3 r4 r5 r1f r2f r3f r4f r5f b1 b2 b3 b4 b5 b1f b2f b3f b4f b5f
      h1 h2 h3 h4 h5 h1f h2f h3f h4f h5f
    simp [figures.build_statistical_models, fitOrRaise, h1, h2, h3, h4, h5,
      h1f, h2f, h3f, h4f, h5f, bind, Except.bind]

/-- Witness for the amended C7: both summary tables of the primary module on
a formula-recording optimizer, with the five nested columns in order for
`any_conflict` and the two future columns. -/
theorem nested_family_order_witness :
    (build_statistical_models fitFormulaPayload (.ok "plm" true) (fun r => .ok r true)).map
        (fun l => l.lookup "summary_table")
      = .ok (some (.summary [("Model 1", formula_model1), ("Model 2", formula_model2),
          ("Model 3", formula_model3), ("Model 4", formula_model4),
          ("Model 5", formula_model5)])) :=
  ((nested_family_order fitFormulaPayload (.ok "plm" true) (fun r => .ok r true)).1
    "bfgs" formula_model1 formula_model2 formula_model3 formula_model4 formula_model5
    formula_model5 "plm" formula_model1 formula_model5 formula_model1f formula_model5f
    true true true true true true true true true true true
    rfl rfl rfl rfl rfl rfl rfl rfl rfl rfl rfl rfl).1

end EthnicConflict
